import Mathlib

/-!
Verification of the gpsmon monitor dispatch and session-control engine
(src/gpsd/gpsmon/gpsmon.c and src/gpsd/gpsmon/monitor_nmea0183.c).

Modelling conventions.
Byte buffers and C strings are modelled as lists of byte values
(`List Nat`, each value in 0..255); a NUL-terminated C string is the list
of its bytes before the terminator.  Pure functions of the source become
Lean functions; stateful code becomes explicit state passing; calls out to
external gpsd-library collaborators (JSON parsers, the driver table,
capability function pointers, file and terminal I/O) are modelled as
oracle inputs and are recorded as events/effects in the result, so that
theorems can speak about which external operations the code performs and
in which order.  Display-only output (curses painting, stdout echo) has no
modelled effect.  Constants that the source pulls from gpsd headers that
are not part of this repository (packet-type numbers, DRIVER_STICKY) are
modelled from those headers; their exact numeric values are not
load-bearing for any theorem below.
-/

namespace Gpsmon

/-- Model of C `isprint` in the C locale: printable ASCII, 0x20 .. 0x7e. -/
def isprint (c : Nat) : Bool := decide (0x20 ≤ c ∧ c ≤ 0x7e)

/-- Model of C `isspace` in the C locale: space and 0x09 .. 0x0d. -/
def isspace (c : Nat) : Bool := c == 0x20 || decide (0x09 ≤ c ∧ c ≤ 0x0d)

/-- Packet-type constant from the external gpsd headers. -/
def BAD_PACKET : Int := -1

/-- Packet-type constant from the external gpsd headers. -/
def NMEA_PACKET : Int := 1

/-- Packet-type constant from the external gpsd headers. -/
def MAX_TEXTUAL_TYPE : Int := 3

/-- Packet-type constant from the external gpsd headers (exact value is
not load-bearing for the theorems below). -/
def JSON_PACKET : Int := 17

/-- Model of the TEXTUAL_PACKET_TYPE(n) macro of the external gpsd
headers: textual packet range or the JSON packet type. -/
def TEXTUAL_PACKET_TYPE (t : Int) : Bool :=
  decide (NMEA_PACKET ≤ t ∧ t ≤ MAX_TEXTUAL_TYPE) || t == JSON_PACKET

/-- Driver-flag bit from the external gpsd headers. -/
def DRIVER_STICKY : Nat := 1

/-- The two hex-digit bytes printed by printf format %02x for the byte
value n (0 .. 15 for each digit; lowercase letters). -/
def hexdigitByte (n : Nat) : Nat := if n < 10 then 48 + n else 87 + n

/-- The two bytes produced by snprintf %02x for a byte value b < 256. -/
def hexbyte (b : Nat) : List Nat := [hexdigitByte (b / 16), hexdigitByte (b % 16)]

/-- The four escape bytes written by snprintf with format backslash-x%02x:
a backslash (92), the letter x (120) and two hex digits. -/
def escape4 (b : Nat) : List Nat := 92 :: 120 :: hexbyte b

/-- One step of `visibilize` (gpsmon.c lines 133-138): the bytes appended
for the byte c when the bytes after it (before the NUL terminator) are
`rest`.  A byte is copied verbatim if it is printable, or a final newline
(sp[1] == NUL), or a carriage return with exactly one byte between it and
the terminator (sp[2] == NUL); otherwise the four-byte hex escape is
appended.  When a carriage return is the final byte, the C code reads one
byte past the terminator; that byte is modelled as nonzero. -/
def visPiece (c : Nat) (rest : List Nat) : List Nat :=
  if isprint c || (c == 10 && rest.isEmpty) || (c == 13 && rest.length == 1) then [c]
  else escape4 (c % 256)

/-- The loop of `visibilize` (gpsmon.c line 132): before consuming each
input byte the guard strlen(buf2) + 4 < len2 is checked; when it fails the
loop stops and the output so far stands. -/
def visibilizeGo (len2 : Nat) (acc : List Nat) : List Nat → List Nat
  | [] => acc
  | c :: rest =>
    if acc.length + 4 < len2 then visibilizeGo len2 (acc ++ visPiece c rest) rest
    else acc

/-- Model of `visibilize` (gpsmon.c lines 126-139).  buf2[0] = NUL first
(empty output), then the guarded copy/escape loop.  The returned list is
the content of buf2 before its NUL terminator; the NUL itself sits at
offset `(visibilize len2 buf).length`. -/
def visibilize (len2 : Nat) (buf : List Nat) : List Nat := visibilizeGo len2 [] buf

/-- The printable-branch loop of `cond_hexdump` (gpsmon.c lines 152-166).
`i` is the input index, `len` the declared input length, `acc` the output
bytes so far (strlen(buf2) = acc.length: only non-NUL bytes are ever
appended).  The loop guard is i < len && j < len2 - 1; printable bytes are
copied; for textual packet types a final newline (i == len - 1) or a
carriage return at i == len - 2 is skipped; any other byte is appended as
a hex escape truncated by snprintf to the remaining room len2 - j - 1. -/
def chGo (lt : Int) (len2 len : Nat) : Nat → List Nat → List Nat → List Nat
  | _, acc, [] => acc
  | i, acc, c :: rest =>
    if i < len ∧ acc.length < len2 - 1 then
      if isprint c then chGo lt len2 len (i + 1) (acc ++ [c]) rest
      else if TEXTUAL_PACKET_TYPE lt &&
              ((i == len - 1 && c == 10) || (i == len - 2 && c == 13)) then
        chGo lt len2 len (i + 1) acc rest
      else chGo lt len2 len (i + 1) (acc ++ (escape4 (c % 256)).take (len2 - acc.length - 1)) rest
    else acc

/-- The hex-dump branch of `cond_hexdump` (gpsmon.c lines 168-171):
str_appendf appends two hex digits per byte, truncated by its snprintf to
the remaining room len2 - strlen(buf2) - 1. -/
def hdGo (len2 : Nat) (acc : List Nat) : List Nat → List Nat
  | [] => acc
  | c :: rest => hdGo len2 (acc ++ (hexbyte (c % 256)).take (len2 - acc.length - 1)) rest

/-- Model of `cond_hexdump` (gpsmon.c lines 141-172).  `lt` is the global
session.lexer.type read by the TEXTUAL_PACKET_TYPE test.  The whole buffer
is first classified printable iff every byte is printable or whitespace;
a printable buffer goes through the copy/escape loop, any other buffer is
dumped as plain hex.  The returned list is the content of buf2 before its
NUL terminator. -/
def cond_hexdump (lt : Int) (len2 : Nat) (buf : List Nat) : List Nat :=
  if buf.all (fun c => isprint c || isspace c) then chGo lt len2 buf.length 0 [] buf
  else hdGo len2 [] buf

/-- Model of struct gps_type_t (external gpsd header) as used by the
monitor: the protocol name, the driver flag bits, and the presence of the
optional capability function pointers (mode_switcher, speed_switcher,
rate_switcher, control_send). -/
structure gps_type_t where
  type_name : String
  flags : Nat
  has_mode_switcher : Bool
  has_speed_switcher : Bool
  has_rate_switcher : Bool
  has_control_send : Bool
deriving DecidableEq

/-- Model of struct monitor_object_t (gpsmon.h, external header): the
presence of each lifecycle callback, the minimum display size, and the
driver descriptor the handler is bound to.  has_init_hook records whether
the initialize callback is non-NULL, has_wrap whether the wrap (leave)
callback is non-NULL. -/
structure monitor_object_t where
  has_init_hook : Bool
  has_update : Bool
  has_command : Bool
  has_wrap : Bool
  min_y : Int
  min_x : Int
  driver : gps_type_t
deriving DecidableEq

/-- Modelled from the external gpsd driver table: the generic NMEA0183
driver referenced by gpsmon.c line 49 and monitor_nmea0183.c line 25.
Only type_name and flags matter to the theorems below. -/
def driver_nmea0183 : gps_type_t :=
  { type_name := "NMEA0183", flags := 0,
    has_mode_switcher := false, has_speed_switcher := false,
    has_rate_switcher := false, has_control_send := true }

/-- Modelled from the external gpsd driver table: the JSON passthrough
driver referenced by gpsmon.c line 67. -/
def driver_json_passthrough : gps_type_t :=
  { type_name := "JSON slave driver", flags := DRIVER_STICKY,
    has_mode_switcher := false, has_speed_switcher := false,
    has_rate_switcher := false, has_control_send := false }

/-- nmea_mmt (monitor_nmea0183.c lines 246-253): initialize, update and
wrap callbacks present, no command callback; min_y = HEIGHT = 3+3+9+6 =
21, min_x = WIDTH = 25+27+30-2 = 80. -/
def nmea_mmt : monitor_object_t :=
  { has_init_hook := true, has_update := true, has_command := false,
    has_wrap := true, min_y := 21, min_x := 80, driver := driver_nmea0183 }

/-- json_mmt (gpsmon.c lines 68-75): all callbacks NULL, min_y = 0,
min_x = 80. -/
def json_mmt : monitor_object_t :=
  { has_init_hook := false, has_update := false, has_command := false,
    has_wrap := false, min_y := 0, min_x := 80, driver := driver_json_passthrough }

/-- monitor_objects (gpsmon.c lines 77-81): the fixed registry holds the
NMEA handler and the JSON passthrough handler, in that order. -/
def monitor_objects : List monitor_object_t := [nmea_mmt, json_mmt]

/-- A lifecycle hook invocation recorded during a handler switch. -/
inductive HookEvent where
  | wrapCall (driver : String)
  | initCall (driver : String)
deriving DecidableEq

/-- Test whether a recorded hook event is an initialize-hook call. -/
def isInitEvent : HookEvent → Bool
  | .initCall _ => true
  | _ => false

/-- The result of switch_type: its C return value, the active handler
afterwards, and the lifecycle hooks it invoked, in order. -/
structure SwitchResult where
  returned : Bool
  active : Option monitor_object_t
  events : List HookEvent
deriving DecidableEq

/-- The registry scan of switch_type (gpsmon.c lines 268-274): the first
handler whose driver type_name compares equal (strcmp == 0) to the
requested device type name. -/
def find_monitor (objs : List monitor_object_t) (devtype : gps_type_t) :
    Option monitor_object_t :=
  objs.find? (fun m => m.driver.type_name == devtype.type_name)

/-- The wrap-hook events switch_type records when it replaces the active
handler (gpsmon.c lines 283-286): the outgoing handler's wrap hook when
present, nothing otherwise. -/
def wrap_events (act : Option monitor_object_t) : List HookEvent :=
  match act with
  | some a => if a.has_wrap then [HookEvent.wrapCall a.driver.type_name] else []
  | none => []

/-- Model of switch_type (gpsmon.c lines 265-299).  `lines` and `cols`
are the curses LINES/COLS globals.  If a registry entry matches: on a
display too small, complain and return true with the active handler kept;
otherwise invoke the outgoing handler's wrap hook when present, install
the new handler (screen clearing is display-only) and return true.  If no
entry matches, complain and return false.  The source never invokes the
incoming handler's initialize callback. -/
def switch_type (objs : List monitor_object_t) (lines cols : Int)
    (act : Option monitor_object_t) (devtype : gps_type_t) : SwitchResult :=
  match find_monitor objs devtype with
  | some newobject =>
    if lines < newobject.min_y + 1 ∨ cols < newobject.min_x then
      { returned := true, active := act, events := [] }
    else
      { returned := true, active := some newobject, events := wrap_events act }
  | none => { returned := false, active := act, events := [] }

/-- The lookup-target computation of select_packet_monitor (gpsmon.c
lines 311-315): start from the session's current device type; if the new
packet type is NMEA and the current device type carries DRIVER_STICKY,
the target is overridden to the generic driver_nmea0183. -/
def active_type_for (device_type : gps_type_t) (lexer_type : Int) : gps_type_t :=
  if lexer_type = NMEA_PACKET ∧ (device_type.flags &&& DRIVER_STICKY) ≠ 0 then
    driver_nmea0183
  else device_type

/-- The monitor-side state select_packet_monitor reads and writes: the
static last_type and the active handler pointer. -/
structure SelectState where
  last_type : Int
  active : Option monitor_object_t
deriving DecidableEq

/-- The device fields select_packet_monitor reads: lexer.type, the
driver the session currently uses, and lexer.outbuflen. -/
structure DeviceView where
  lexer_type : Int
  device_type : gps_type_t
  outbuflen : Nat
deriving DecidableEq

/-- Termination code (gpsmon.c line 91). -/
def TERM_SELECT_FAILED : Int := 1

/-- Termination code (gpsmon.c line 92). -/
def TERM_DRIVER_SWITCH : Int := 2

/-- Termination code (gpsmon.c line 93). -/
def TERM_EMPTY_READ : Int := 3

/-- Termination code (gpsmon.c line 94). -/
def TERM_READ_ERROR : Int := 4

/-- Termination code (gpsmon.c line 95). -/
def TERM_SIGNAL : Int := 5

/-- Termination code (gpsmon.c line 96). -/
def TERM_QUIT : Int := 6

/-- The outcome of select_packet_monitor: a longjmp cause when the switch
failed, the resulting monitor state, the lifecycle hooks run, and whether
the active handler's update hook ran for this packet. -/
structure SelectResult where
  terminated : Option Int
  st : SelectState
  events : List HookEvent
  updateRan : Bool
deriving DecidableEq

/-- The per-packet update condition of select_packet_monitor (gpsmon.c
lines 325-329): the update hook runs iff a handler is active, the payload
is non-empty and the handler has an update callback. -/
def runUpdate (act : Option monitor_object_t) (outbuflen : Nat) : Bool :=
  match act with
  | some a => decide (0 < outbuflen) && a.has_update
  | none => false

/-- Model of select_packet_monitor (gpsmon.c lines 301-330).  When the
packet type changed, compute the (possibly sticky-overridden) lookup
target, run switch_type, longjmp with TERM_DRIVER_SWITCH if it returned
false, otherwise record the new last_type (refresh calls are
display-only); in every non-terminating case the update condition is then
evaluated. -/
def select_packet_monitor (objs : List monitor_object_t) (lines cols : Int)
    (st : SelectState) (dev : DeviceView) : SelectResult :=
  if dev.lexer_type ≠ st.last_type then
    let r := switch_type objs lines cols st.active
               (active_type_for dev.device_type dev.lexer_type)
    if r.returned then
      { terminated := none, st := { last_type := dev.lexer_type, active := r.active },
        events := r.events, updateRan := runUpdate r.active dev.outbuflen }
    else
      { terminated := some TERM_DRIVER_SWITCH, st := st, events := r.events,
        updateRan := false }
  else
    { terminated := none, st := st, events := [],
      updateRan := runUpdate st.active dev.outbuflen }

/-- Model of struct timespec: seconds and nanoseconds as integers. -/
structure timespec where
  tv_sec : Int
  tv_nsec : Int
deriving DecidableEq

/-- Model of struct timedelta_t (external gpsd header): a device clock
reading paired with a wall-clock reading. -/
structure timedelta_t where
  clock : timespec
  real : timespec
deriving DecidableEq

/-- Nanoseconds per second, from the external timespec.h header. -/
def NS_IN_SEC : Int := 1000000000

/-- Modelled (single borrow/carry step) from the TS_NORM macro of the
external timespec.h header; the exact normalisation is not load-bearing
for the theorems below. -/
def ts_norm (ts : timespec) : timespec :=
  if ts.tv_nsec < 0 then { tv_sec := ts.tv_sec - 1, tv_nsec := ts.tv_nsec + NS_IN_SEC }
  else if NS_IN_SEC ≤ ts.tv_nsec then
    { tv_sec := ts.tv_sec + 1, tv_nsec := ts.tv_nsec - NS_IN_SEC }
  else ts

/-- The TS_SUB macro of the external timespec.h header: componentwise
difference followed by normalisation. -/
def ts_sub (a b : timespec) : timespec :=
  ts_norm { tv_sec := a.tv_sec - b.tv_sec, tv_nsec := a.tv_nsec - b.tv_nsec }

/-- The TS_GT macro of the external timespec.h header: lexicographic
strictly-greater on (sec, nsec). -/
def TS_GT (a b : timespec) : Bool :=
  decide (b.tv_sec < a.tv_sec) ||
    (a.tv_sec == b.tv_sec && decide (b.tv_nsec < a.tv_nsec))

/-- The TS_GZ macro of the external timespec.h header: strictly greater
than zero. -/
def TS_GZ (a : timespec) : Bool :=
  decide (0 < a.tv_sec) || (a.tv_sec == 0 && decide (0 < a.tv_nsec))

/-- The bytes of the C literal marking a TOFF report, read by
str_starts_with at gpsmon.c line 413 (an opening brace, then
"class":"TOFF" and a comma). -/
def toffMarker : List Nat :=
  [123, 34, 99, 108, 97, 115, 115, 34, 58, 34, 84, 79, 70, 70, 34, 44]

/-- The bytes of the C literal marking a PPS report, read by
str_starts_with at gpsmon.c line 433 (an opening brace, then
"class":"PPS" and a comma). -/
def ppsMarker : List Nat :=
  [123, 34, 99, 108, 97, 115, 115, 34, 58, 34, 80, 80, 83, 34, 44]

/-- The state gpsmon_hook reads and writes: the serial flag, the static
time_offset captured from TOFF packets, the pps_thread output sample and
counter, the latest fix time device->newdata.time, and the reference fix
time device->pps_thread.fix_in.real (written only by the external
ntp_latch, never by this file's code).  Terminal/curses and logfile
output are display-only and not modelled. -/
structure HookState where
  serial : Bool
  time_offset : timedelta_t
  pps_out : timedelta_t
  ppsout_count : Nat
  newdata_time : timespec
  fix_in_real : timespec
deriving DecidableEq

/-- The per-packet inputs of gpsmon_hook: the lexer output buffer, and
the outcomes of the external JSON parsers when the corresponding branch
is taken (none models a parse error). -/
structure PacketView where
  outbuffer : List Nat
  toff_parse : Option timedelta_t
  pps_parse : Option timedelta_t
deriving DecidableEq

/-- The result of gpsmon_hook: the state afterwards and the list of
samples passed to the external ntp_latch (at most one per packet). -/
structure HookResult where
  state : HookState
  latch_calls : List timedelta_t
deriving DecidableEq

/-- The NTP-latch tail of gpsmon_hook (gpsmon.c lines 518-527): no call
when the latest fix time is non-positive, no call when it is not strictly
newer than the reference fix time, otherwise exactly one ntp_latch call
carrying the current time_offset sample. -/
def ntp_check (st : HookState) : HookResult :=
  if st.newdata_time.tv_sec ≤ 0 then { state := st, latch_calls := [] }
  else if st.newdata_time.tv_sec ≤ st.fix_in_real.tv_sec then
    { state := st, latch_calls := [] }
  else { state := st, latch_calls := [st.time_offset] }

/-- Model of gpsmon_hook (gpsmon.c lines 403-527).  In client (non-serial)
mode a buffer starting with the TOFF marker is parsed: on error the hook
complains and returns, on success it stores the sample into time_offset
and returns -- in both cases before the NTP-latch tail.  A buffer starting
with the PPS marker is parsed: on error the hook returns, on success it
stores the pulse sample, bumps the counter and falls through to the
reporting code and the NTP-latch tail.  Every other packet is dumped
(display-only) and falls through to the NTP-latch tail. -/
def gpsmon_hook (st : HookState) (pkt : PacketView) : HookResult :=
  if st.serial = false ∧ toffMarker.isPrefixOf pkt.outbuffer then
    match pkt.toff_parse with
    | none => { state := st, latch_calls := [] }
    | some toff => { state := { st with time_offset := toff }, latch_calls := [] }
  else if st.serial = false ∧ ppsMarker.isPrefixOf pkt.outbuffer then
    match pkt.pps_parse with
    | none => { state := st, latch_calls := [] }
    | some pps =>
      ntp_check { st with pps_out := pps, ppsout_count := st.ppsout_count + 1 }
  else ntp_check st

/-- The shutdown message map of main (gpsmon.c lines 1167-1189): each
abnormal termination cause selects its own message, TERM_SIGNAL and
TERM_QUIT select none, anything else selects the unknown-error message. -/
def explanation (bailout : Int) : Option String :=
  if bailout = TERM_SELECT_FAILED then some ("I/O wait on device failed\n")
  else if bailout = TERM_DRIVER_SWITCH then some ("Driver type switch failed\n")
  else if bailout = TERM_EMPTY_READ then some ("Device went offline\n")
  else if bailout = TERM_READ_ERROR then some ("Read error from device\n")
  else if bailout = TERM_SIGNAL ∨ bailout = TERM_QUIT then none
  else some ("Unknown error, should never happen.\n")

/-- The messages the shutdown path prints (gpsmon.c lines 1191-1193): the
selected explanation when there is one, nothing otherwise. -/
def shutdown_messages (bailout : Int) : List String :=
  match explanation bailout with
  | some e => [e]
  | none => []

/-- The process exit status of the shutdown path (gpsmon.c line 1194):
exit(EXIT_SUCCESS) on every path through the quit label, for every
recorded cause. -/
def exit_code (bailout : Int) : Nat := 0

/-- The whitespace-scan loop of do_command (gpsmon.c lines 537-538):
while the byte at the scan position is not the terminator and is
whitespace, the pointer advances by two (one increment in the loop body
and one in the loop head).  `p` is the current index and the list
argument is the bytes from index p on; the function returns the index at
which the loop stops. -/
def argScanAux (p : Nat) : List Nat → Nat
  | [] => p
  | c :: rest =>
    if isspace c then
      match rest with
      | [] => p + 2
      | _ :: rest2 => argScanAux (p + 2) rest2
    else p

/-- The argument computation of do_command (gpsmon.c lines 536-541): when
line[1] is whitespace, the scan loop runs from index 2 and a final
unconditional increment is applied; otherwise the argument starts at
index 1.  (When the scan ends at the terminator the C pointer comes to
rest one byte past it; List.drop clamps that corner, which no theorem
below exercises.) -/
def argOf (line : List Nat) : List Nat :=
  if isspace (line.getD 1 0) = true then line.drop (argScanAux 2 (line.drop 2) + 1)
  else line.drop 1

/-- Digit-accumulation loop of C atoi: consume decimal digits, stop at
the first non-digit. -/
def atoiDigits : List Nat → Nat → Nat
  | c :: rest, acc =>
    if 48 ≤ c ∧ c ≤ 57 then atoiDigits rest (acc * 10 + (c - 48)) else acc
  | [], acc => acc

/-- Model of C atoi on a byte string: skip leading whitespace, optional
sign, then decimal digits. -/
def atoiBytes (s : List Nat) : Int :=
  match s.dropWhile (fun c => isspace c) with
  | 45 :: rest => -(atoiDigits rest 0 : Int)
  | 43 :: rest => (atoiDigits rest 0 : Int)
  | t => (atoiDigits t 0 : Int)

/-- The argument-presence test shared by the i and n commands (gpsmon.c
lines 576, 597): strcspn(line, "01") == strlen(line), i.e. the line
contains no 0 and no 1 byte anywhere. -/
def noZeroOne (line : List Nat) : Bool := line.all (fun c => !(c == 48 || c == 49))

/-- The bytes of a Lean string, for matching against C string tables. -/
def strBytes (s : String) : List Nat := s.toList.map (fun c => c.toNat)

/-- Model of C strstr(hay, needle) != NULL: the needle occurs as a
contiguous substring of the haystack (an empty needle always matches). -/
def strstrHit (needle : List Nat) : List Nat → Bool
  | [] => needle.isEmpty
  | c :: rest => needle.isPrefixOf (c :: rest) || strstrHit needle rest

/-- An externally visible action performed by do_command.  complainMsg /
announceMsg record complain() and announce_log() output (format arguments
elided where the C text interpolates them); the *Call constructors record
invocations of external capability, transport, file and driver-table
operations along with the arguments the code hands them. -/
inductive Effect where
  | complainMsg (msg : String)
  | announceMsg (msg : String)
  | fcloseLog
  | fopenAppend (path : List Nat)
  | rateSwitcherCall (driver : String) (argbytes : List Nat)
  | modeSwitcherCall (driver : String) (mode : Int)
  | speedSwitcherCall (driver : String) (speed : Int) (parity : Nat) (stopbits : Nat)
  | setSpeedCall (speed : Int) (parity : Nat) (stopbits : Nat)
  | tcdrainCall
  | nanosleepCall
  | switchDriverCall (driver : String)
  | controlSendCall (len : Int)
  | rawSendCall (len : Int)
  | wrapHookCall (driver : String)
  | initHookCall (driver : String)
deriving DecidableEq

/-- Test whether an effect is a mode-switch capability invocation. -/
def isModeSwitcherCall : Effect → Bool
  | .modeSwitcherCall _ _ => true
  | _ => false

/-- Test whether an effect is a speed-switch capability invocation. -/
def isSpeedSwitcherCall : Effect → Bool
  | .speedSwitcherCall _ _ _ _ => true
  | _ => false

/-- Embed a lifecycle hook event (from switch_type, reached through the
t command) into the effect trace. -/
def embedEvent : HookEvent → Effect
  | .wrapCall n => .wrapHookCall n
  | .initCall n => .initHookCall n

/-- The mutable state do_command reads and writes: session.device_type,
the serial flag, context.readonly, the log sink, the remembered fallback
driver, session.lexer.type and .counter, the line parameters
session.gpsdata.dev.parity/stopbits, and (for the t command) the active
monitor object and the curses LINES/COLS. -/
structure CmdState where
  device_type : Option gps_type_t
  serial : Bool
  readonly : Bool
  logfile_open : Bool
  fallback : Option gps_type_t
  lexer_type : Int
  lexer_counter : Nat
  dev_parity : Nat
  dev_stopbits : Nat
  active : Option monitor_object_t
  lines : Int
  cols : Int
deriving DecidableEq

/-- Oracle outcomes of the external calls do_command makes: the driver
table scanned by the t command, the fopen result of the l command, the
boolean results of the capability and transport calls, and the
gpsd_hexpack result used by x and X. -/
structure CmdEnv where
  gpsd_drivers : List gps_type_t
  fopen_ok : Bool
  rate_switch_ok : Bool
  speed_switch_ok : Bool
  hexpack_result : Int
  control_send_ok : Bool
  raw_send_ok : Bool
deriving DecidableEq

/-- The result of do_command: its C return value (false = quit), the
state afterwards and the effect trace in program order. -/
structure CmdResult where
  cont : Bool
  state : CmdState
  effects : List Effect
deriving DecidableEq

/-- The c command (gpsmon.c lines 544-569): device and low-level checks,
fallback-preferring switcher selection, then the rate-switch capability
call (the strtod of the argument happens inside the external call and is
recorded as the raw argument bytes); context.readonly ends true. -/
def cmd_c (st : CmdState) (env : CmdEnv) (arg : List Nat) : CmdState × List Effect :=
  match st.device_type with
  | none => (st, [Effect.complainMsg ("No device defined yet")])
  | some dt =>
    if st.serial = false then
      (st, [Effect.complainMsg ("Only available in low-level mode.")])
    else
      let switcher := match st.fallback with
        | some f => if f.has_rate_switcher then f else dt
        | none => dt
      if switcher.has_rate_switcher then
        ({ st with readonly := true },
         Effect.rateSwitcherCall switcher.type_name arg ::
           (if env.rate_switch_ok then [Effect.announceMsg ("[Rate switcher called.]")]
            else [Effect.complainMsg ("Rate not supported.")]))
      else
        (st, [Effect.complainMsg
                ("Device type " ++ switcher.type_name ++ " has no rate switcher")])

/-- The i command (gpsmon.c lines 570-585): device and low-level checks;
with no 0/1 byte anywhere in the line context.readonly is toggled,
otherwise it is set to (atoi(line + 1) == 0); the announce reports the
resulting probing state; and only when probing ends enabled (readonly
false) is session.lexer.counter reset to 0. -/
def cmd_i (st : CmdState) (line : List Nat) : CmdState × List Effect :=
  match st.device_type with
  | none => (st, [Effect.complainMsg ("No GPS type detected.")])
  | some _ =>
    if st.serial = false then
      (st, [Effect.complainMsg ("Only available in low-level mode.")])
    else
      let ro := if noZeroOne line then !st.readonly else (atoiBytes (line.drop 1) == 0)
      ({ st with readonly := ro,
                 lexer_counter := if ro then st.lexer_counter else 0 },
       [Effect.announceMsg (if ro then "[probing disabled]" else "[probing enabled]")])

/-- The n command (gpsmon.c lines 595-637).  The mode value v is computed
first: with no 0/1 byte in the line it is 1 iff the current packet type
is textual, otherwise (unsigned)atoi(line + 1).  After the device and
low-level checks the fallback-preferring switcher is selected; with a
mode-switch capability the code announces, invokes the capability, ends
with context.readonly true, drains and settles, and if v == 0 remembers
the switcher as the new fallback. -/
def cmd_n (st : CmdState) (line : List Nat) : CmdState × List Effect :=
  let v : Int := if noZeroOne line then (if TEXTUAL_PACKET_TYPE st.lexer_type then 1 else 0)
                 else atoiBytes (line.drop 1)
  match st.device_type with
  | none => (st, [Effect.complainMsg ("No device defined yet")])
  | some dt =>
    if st.serial = false then
      (st, [Effect.complainMsg ("Only available in low-level mode.")])
    else
      let switcher := match st.fallback with
        | some f => if f.has_mode_switcher then f else dt
        | none => dt
      if switcher.has_mode_switcher then
        ({ st with readonly := true,
                   fallback := if v == 0 then some switcher else st.fallback },
         [Effect.announceMsg ("[Mode switcher to mode]"),
          Effect.modeSwitcherCall switcher.type_name v,
          Effect.tcdrainCall, Effect.nanosleepCall])
      else
        (st, [Effect.complainMsg
                ("Device type " ++ switcher.type_name ++ " has no mode switcher")])

/-- The speed-switch invocation tail of the s command (gpsmon.c lines
679-709): with the capability present, invoke it (readonly ends true); on
success announce, drain, settle and apply the new discipline locally via
gpsd_set_speed; on failure complain. -/
def cmd_s_fire (st : CmdState) (env : CmdEnv) (switcher : gps_type_t)
    (speed : Int) (parity : Nat) (stopbits : Nat) : CmdState × List Effect :=
  if switcher.has_speed_switcher then
    ({ st with readonly := true },
     Effect.speedSwitcherCall switcher.type_name speed parity stopbits ::
       (if env.speed_switch_ok then
          [Effect.announceMsg ("[Speed switcher called.]"), Effect.tcdrainCall,
           Effect.nanosleepCall, Effect.setSpeedCall speed parity stopbits]
        else [Effect.complainMsg ("Speed/mode combination not supported.")]))
  else
    (st, [Effect.complainMsg
            ("Device type " ++ switcher.type_name ++ " has no speed switcher")])

/-- The body of the s command after the device and low-level checks
(gpsmon.c lines 647-710).  The fallback-preferring switcher is selected;
strchr(arg, 58) finds a colon; when present, the three bytes after the
colon are checked in turn against "78", "NOE" and "12" (C strchr finds
the terminator too, so a NUL byte passes each check) with a distinct
complaint for each failure, and the stop-bits byte is converted by
subtracting 48; the baud is (unsigned)atoi(arg). -/
def cmd_s_body (st : CmdState) (env : CmdEnv) (dt : gps_type_t) (arg : List Nat) :
    CmdState × List Effect :=
  let switcher := match st.fallback with
    | some f => if f.has_speed_switcher then f else dt
    | none => dt
  match arg.dropWhile (fun c => !(c == 58)) with
  | _ :: ms =>
    let m1 := ms.getD 0 0
    if !(m1 == 55 || m1 == 56 || m1 == 0) then
      (st, [Effect.complainMsg ("No support for that word length.")])
    else
      let parity := ms.getD 1 0
      if !(parity == 78 || parity == 79 || parity == 69 || parity == 0) then
        (st, [Effect.complainMsg ("What parity?")])
      else
        let sb := ms.getD 2 0
        if !(sb == 49 || sb == 50 || sb == 0) then
          (st, [Effect.complainMsg ("Stop bits must be 1 or 2.")])
        else cmd_s_fire st env switcher (atoiBytes arg) parity (sb - 48)
  | [] => cmd_s_fire st env switcher (atoiBytes arg) st.dev_parity st.dev_stopbits

/-- The t command (gpsmon.c lines 713-739): low-level check; with a
non-empty argument, scan the external driver table for type names that
contain the argument as a substring; zero or multiple matches complain;
a unique match runs switch_type and, when it returns true, instructs the
transport to force that driver (gpsd_switch_driver). -/
def cmd_t (st : CmdState) (env : CmdEnv) (arg : List Nat) : CmdState × List Effect :=
  if st.serial = false then
    (st, [Effect.complainMsg ("Only available in low-level mode.")])
  else if 0 < arg.length then
    match env.gpsd_drivers.filter (fun d => strstrHit arg (strBytes d.type_name)) with
    | [] => (st, [Effect.complainMsg ("No driver type matches.")])
    | [d] =>
      let r := switch_type monitor_objects st.lines st.cols st.active d
      if r.returned then
        ({ st with active := r.active },
         (r.events.map embedEvent) ++ [Effect.switchDriverCall d.type_name])
      else ({ st with active := r.active }, r.events.map embedEvent)
    | _ => (st, [Effect.complainMsg ("Multiple driver type names match.")])
  else (st, [])

/-- The x command (gpsmon.c lines 740-755): device and low-level checks;
a negative gpsd_hexpack result complains; a missing control_send
capability complains; otherwise monitor_control_send runs the capability
(context.readonly ends true) and a false return complains. -/
def cmd_x (st : CmdState) (env : CmdEnv) : CmdState × List Effect :=
  match st.device_type with
  | none => (st, [Effect.complainMsg ("No device defined yet")])
  | some dt =>
    if st.serial = false then
      (st, [Effect.complainMsg ("Only available in low-level mode.")])
    else if env.hexpack_result < 0 then
      (st, [Effect.complainMsg ("Invalid hex string")])
    else if dt.has_control_send = false then
      (st, [Effect.complainMsg
              ("Device type " ++ dt.type_name ++ " has no control-send method.")])
    else
      ({ st with readonly := true },
       Effect.controlSendCall env.hexpack_result ::
         (if env.control_send_ok then [] else [Effect.complainMsg ("Control send failed.")]))

/-- The X command (gpsmon.c lines 757-767): low-level check; a negative
gpsd_hexpack result complains; otherwise the bytes are sent raw,
bypassing capability dispatch, and a failed send complains. -/
def cmd_X_raw (st : CmdState) (env : CmdEnv) : CmdState × List Effect :=
  if st.serial = false then
    (st, [Effect.complainMsg ("Only available in low-level mode.")])
  else if env.hexpack_result < 0 then
    (st, [Effect.complainMsg ("Invalid hex string")])
  else
    (st, Effect.rawSendCall env.hexpack_result ::
           (if env.raw_send_ok then [] else [Effect.complainMsg ("Raw send failed.")]))

/-- Model of do_command (gpsmon.c lines 529-776).  The argument pointer
is computed by argOf, then the verb (line[0]) is dispatched.  Note the l
case (gpsmon.c lines 587-593): any open log sink is closed, then
fopen(line + 1, "a") is attempted; only a successful open reaches the
break statement -- on failure control falls through into the n (mode
change) case with the same line.  Every case except q returns true. -/
def do_command (st : CmdState) (env : CmdEnv) (line : List Nat) : CmdResult :=
  let arg := argOf line
  match line.getD 0 0 with
  | 99 => let r := cmd_c st env arg; { cont := true, state := r.1, effects := r.2 }
  | 105 => let r := cmd_i st line; { cont := true, state := r.1, effects := r.2 }
  | 108 =>
    let closeEffs := if st.logfile_open then [Effect.fcloseLog] else []
    if env.fopen_ok then
      { cont := true, state := { st with logfile_open := true },
        effects := closeEffs ++ [Effect.fopenAppend (line.drop 1)] }
    else
      let r := cmd_n { st with logfile_open := false } line
      { cont := true, state := r.1,
        effects := closeEffs ++ [Effect.fopenAppend (line.drop 1)] ++ r.2 }
  | 110 => let r := cmd_n st line; { cont := true, state := r.1, effects := r.2 }
  | 113 => { cont := false, state := st, effects := [] }
  | 115 =>
    match st.device_type with
    | none => { cont := true, state := st,
                effects := [Effect.complainMsg ("No device defined yet")] }
    | some dt =>
      if st.serial = false then
        { cont := true, state := st,
          effects := [Effect.complainMsg ("Only available in low-level mode.")] }
      else
        let r := cmd_s_body st env dt arg
        { cont := true, state := r.1, effects := r.2 }
  | 116 => let r := cmd_t st env arg; { cont := true, state := r.1, effects := r.2 }
  | 120 => let r := cmd_x st env; { cont := true, state := r.1, effects := r.2 }
  | 88 => let r := cmd_X_raw st env; { cont := true, state := r.1, effects := r.2 }
  | _ => { cont := true, state := st, effects := [Effect.complainMsg ("Unknown command")] }

/-- The state nmea_update reads and writes: the static sentences buffer
(as its bytes before the terminator) and the static last_tick and
tick_interval timestamps (monitor_nmea0183.c lines 27-30). -/
structure NmeaState where
  sentences : List Nat
  last_tick : timespec
  tick_interval : timespec
deriving DecidableEq

/-- The outcome of one nmea_update invocation: skipped (guard at lines
111-112 false, nothing happens), aborted (the assert at line 118 fails),
or the updated static state. -/
inductive NmeaUpdateResult where
  | skipped (st : NmeaState)
  | aborted
  | ok (st : NmeaState)
deriving DecidableEq

/-- Test whether an nmea_update outcome is an assertion abort. -/
def isAborted : NmeaUpdateResult → Bool
  | .aborted => true
  | _ => false

/-- The sentences field of an nmea_update outcome (empty on abort). -/
def sentencesOf : NmeaUpdateResult → List Nat
  | .skipped st => st.sentences
  | .aborted => []
  | .ok st => st.sentences

/-- The overflow branch of the sentences update (monitor_nmea0183.c lines
127-132): the three bytes before the terminator are overwritten with
dots.  (For a buffer shorter than three bytes the C code writes before
the buffer; the model clamps, and no theorem below exercises that
corner.) -/
def ellipsis3 (s : List Nat) : List Nat :=
  s.dropLast.dropLast.dropLast ++ [46, 46, 46]

/-- Model of nmea_update (monitor_nmea0183.c lines 104-238).  The guard
requires the packet to start with a dollar byte (36) and the parsed field
array and its first entry to be non-NULL.  The local variables ymax and
xmax are declared at line 114 and never assigned; the C semantics of
reading them yields indeterminate values, which this model takes as
explicit parameters.  assert(ymax > 0) at line 118 aborts when ymax <= 0.
A first field not yet recorded in the sentences buffer is appended (a
space then the field) when strlen(sentences) + strlen(fields[0]) <
xmax - 2, else the final three bytes become dots.  The tick bookkeeping
(lines 140-148) updates tick_interval and last_tick from the
clock_gettime result, modelled as the `now` parameter.  The satellite,
PVT and per-sentence display code (lines 150-235) only formats output and
has no modelled effect. -/
def nmea_update (st : NmeaState) (outbuffer0 : Nat) (fieldsNonNull : Bool)
    (field0 : Option (List Nat)) (ymax xmax : Int) (now : timespec) :
    NmeaUpdateResult :=
  if outbuffer0 == 36 && fieldsNonNull && field0.isSome then
    let f0 := field0.getD []
    if ymax ≤ 0 then .aborted
    else
      let sentences1 :=
        if strstrHit f0 st.sentences then st.sentences
        else if ((st.sentences.length : Int) + (f0.length : Int) < xmax - 2) then
          st.sentences ++ (32 :: f0)
        else ellipsis3 st.sentences
      let ts_diff := ts_sub now st.last_tick
      let tick1 := if TS_GZ ts_diff && TS_GT ts_diff st.tick_interval then ts_diff
                   else st.tick_interval
      .ok { sentences := sentences1, last_tick := now, tick_interval := tick1 }
  else .skipped st

/-- A sticky device descriptor used as concrete test input (device types
are runtime data supplied by the external driver table). -/
def sticky_test_driver : gps_type_t :=
  { type_name := "Ashtech", flags := DRIVER_STICKY,
    has_mode_switcher := true, has_speed_switcher := true,
    has_rate_switcher := true, has_control_send := true }

/-- A fully capable non-sticky device descriptor used as concrete test
input for the command-processor theorems. -/
def dt_caps_test : gps_type_t :=
  { type_name := "SiRF", flags := 0,
    has_mode_switcher := true, has_speed_switcher := true,
    has_rate_switcher := true, has_control_send := true }

/-- A command-processor state with a known, fully capable device on a
low-level (serial) session, used as concrete test input. -/
def cmd_state_test : CmdState :=
  { device_type := some dt_caps_test, serial := true, readonly := true,
    logfile_open := false, fallback := none, lexer_type := 1,
    lexer_counter := 5, dev_parity := 78, dev_stopbits := 1,
    active := some nmea_mmt, lines := 100, cols := 100 }

/-- An environment in which every external call succeeds. -/
def cmd_env_test : CmdEnv :=
  { gpsd_drivers := [driver_nmea0183], fopen_ok := true, rate_switch_ok := true,
    speed_switch_ok := true, hexpack_result := 0, control_send_ok := true,
    raw_send_ok := true }

/-- cmd_env_test with a failing fopen, for the l command. -/
def cmd_env_fopen_fail : CmdEnv := { cmd_env_test with fopen_ok := false }

/-- cmd_state_test with probing currently enabled and a nonzero retry
counter, for the i command. -/
def cmd_state_probe : CmdState :=
  { cmd_state_test with readonly := false, lexer_counter := 7 }

/-- cmd_state_test with an open log sink, for the l command. -/
def cmd_state_log : CmdState := { cmd_state_test with logfile_open := true }

/-- The bytes of the command line consisting of s, a space and
4800:8N1. -/
def lineS48 : List Nat := [115, 32, 52, 56, 48, 48, 58, 56, 78, 49]

/-- The bytes of the command line consisting of s, a space and
4800:9N1. -/
def lineS49 : List Nat := [115, 32, 52, 56, 48, 48, 58, 57, 78, 49]

/-- The bytes of the command line consisting of l, a space and the path
/tmp/gpslog (a path with no 0 or 1 digit). -/
def lineLog : List Nat := [108, 32, 47, 116, 109, 112, 47, 103, 112, 115, 108, 111, 103]

/-- The bytes of the command line consisting of i, a space and 0. -/
def lineI0 : List Nat := [105, 32, 48]

/-- The bytes of the command line consisting of i, a space and 1. -/
def lineI1 : List Nat := [105, 32, 49]

/-- A concrete timing-offset sample used as test input. -/
def td_test : timedelta_t := { clock := { tv_sec := 100, tv_nsec := 1 },
                               real := { tv_sec := 101, tv_nsec := 2 } }

/-- A second concrete timing-offset sample used as test input. -/
def td_test2 : timedelta_t := { clock := { tv_sec := 200, tv_nsec := 3 },
                                real := { tv_sec := 201, tv_nsec := 4 } }

/-- A hook state in client (non-serial) mode whose latest fix time (5 s)
is positive and strictly newer than the reference fix time (3 s). -/
def hook_state_newfix : HookState :=
  { serial := false, time_offset := td_test, pps_out := td_test,
    ppsout_count := 0, newdata_time := { tv_sec := 5, tv_nsec := 0 },
    fix_in_real := { tv_sec := 3, tv_nsec := 0 } }

/-- A packet whose buffer is exactly the TOFF marker and whose TOFF parse
succeeds with td_test2. -/
def pkt_toff : PacketView :=
  { outbuffer := toffMarker, toff_parse := some td_test2, pps_parse := none }

/-- An nmea_update state whose sentences buffer holds the five bytes
ABCDE. -/
def nmea_state_test : NmeaState :=
  { sentences := [65, 66, 67, 68, 69],
    last_tick := { tv_sec := 0, tv_nsec := 0 },
    tick_interval := { tv_sec := 0, tv_nsec := 0 } }

/-- The bytes of the NMEA tag GPGGA, used as a parsed first field. -/
def gpggaBytes : List Nat := [71, 80, 71, 71, 65]

theorem visPiece_length_le (c : Nat) (rest : List Nat) : (visPiece c rest).length ≤ 4 := by
  unfold visPiece escape4 hexbyte
  split <;> simp

theorem visibilizeGo_length_lt (len2 : Nat) :
    ∀ (buf acc : List Nat), acc.length < len2 →
      (visibilizeGo len2 acc buf).length < len2 := by
  intro buf
  induction buf with
  | nil => intro acc h; simpa [visibilizeGo] using h
  | cons c rest ih =>
    intro acc h
    by_cases hc : acc.length + 4 < len2
    · have hlen : (acc ++ visPiece c rest).length < len2 := by
        have := visPiece_length_le c rest
        simp only [List.length_append]
        omega
      simpa [visibilizeGo, hc] using ih _ hlen
    · simpa [visibilizeGo, hc] using h

/-- C10 (confirmed): for every NUL-terminated input and destination size
len2 with 1 <= len2, visibilize starts from the empty string and appends
a verbatim byte or a four-byte hex escape only while
strlen(output) + 4 < len2, so the final output length is strictly below
len2 (the terminating NUL therefore sits at an offset below len2 and no
byte at or beyond offset len2 is written); in particular for len2 <= 4 no
byte at all is appended. -/
theorem C10_visibilize_bounded (len2 : Nat) (buf : List Nat) (h : 1 ≤ len2) :
    (visibilize len2 buf).length < len2 ∧ (len2 ≤ 4 → visibilize len2 buf = []) := by
  constructor
  · exact visibilizeGo_length_lt len2 buf [] (by simp only [List.length_nil]; omega)
  · intro h4
    cases buf with
    | nil => rfl
    | cons c rest =>
      have hng : ¬(4 < len2) := by omega
      simp [visibilize, visibilizeGo, hng]

/-- Witness for C10 at len2 = 8 and a three-byte buffer containing one
unprintable byte. -/
theorem C10_visibilize_bounded_witness :
    (1 ≤ 8) ∧
    ((visibilize 8 [65, 7, 66]).length < 8 ∧ (8 ≤ 4 → visibilize 8 [65, 7, 66] = [])) :=
  ⟨by decide, C10_visibilize_bounded 8 [65, 7, 66] (by decide)⟩

theorem chGo_all_printable (lt : Int) (len2 len : Nat) :
    ∀ (rest : List Nat) (i : Nat) (acc : List Nat),
      rest.all isprint = true → i + rest.length = len →
      chGo lt len2 len i acc rest = acc ++ rest.take (len2 - 1 - acc.length) := by
  intro rest
  induction rest with
  | nil => intro i acc _ _; simp [chGo]
  | cons c r ih =>
    intro i acc hall hinv
    have hi : i < len := by simp at hinv; omega
    rw [List.all_cons, Bool.and_eq_true] at hall
    obtain ⟨hc, hr⟩ := hall
    by_cases hj : acc.length < len2 - 1
    · have h1 : chGo lt len2 len i acc (c :: r) = chGo lt len2 len (i + 1) (acc ++ [c]) r := by
        simp [chGo, hi, hj, hc]
      rw [h1, ih (i + 1) (acc ++ [c]) hr (by simp at hinv ⊢; omega)]
      have hk : len2 - 1 - acc.length = (len2 - 1 - (acc ++ [c]).length) + 1 := by
        simp
        omega
      rw [hk, List.take_succ_cons]
      simp
    · have hcond : ¬(i < len ∧ acc.length < len2 - 1) := fun hx => hj hx.2
      have h0 : len2 - 1 - acc.length = 0 := by omega
      simp [chGo, hcond, h0]

theorem cond_hexdump_all_printable (lt : Int) (len2 : Nat) (buf : List Nat)
    (h : buf.all isprint = true) :
    cond_hexdump lt len2 buf = buf.take (len2 - 1) := by
  have hps : buf.all (fun c => isprint c || isspace c) = true := by
    rw [List.all_eq_true] at h ⊢
    intro x hx
    simp [h x hx]
  have hgo := chGo_all_printable lt len2 buf.length buf 0 [] h (by simp)
  simpa [cond_hexdump, hps] using hgo

/-- C8 (confirmed): on a buffer whose bytes are all printable pure ASCII
(so in particular with no trailing CR or LF), cond_hexdump copies the
buffer verbatim up to the output bound, and is therefore idempotent:
applying it to its own output yields the same bytes as applying it once.
The hypothesis buf.length < len2 states the destination buffer is large
enough to hold the result. -/
theorem C8_cond_hexdump_idempotent (lt : Int) (len2 : Nat) (buf : List Nat)
    (hp : buf.all isprint = true) (hfit : buf.length < len2) :
    cond_hexdump lt len2 (cond_hexdump lt len2 buf) = cond_hexdump lt len2 buf := by
  have h1 := cond_hexdump_all_printable lt len2 buf hp
  have hp2 : (buf.take (len2 - 1)).all isprint = true := by
    rw [List.all_eq_true] at hp ⊢
    intro x hx
    exact hp x (List.take_subset _ _ hx)
  have h2 := cond_hexdump_all_printable lt len2 (buf.take (len2 - 1)) hp2
  rw [h1, h2, List.take_take, min_self]

/-- Witness for C8 at lexer type 1, len2 = 10 and the printable buffer
Hi. -/
theorem C8_cond_hexdump_idempotent_witness :
    (([72, 105] : List Nat).all isprint = true ∧ ([72, 105] : List Nat).length < 10) ∧
    cond_hexdump 1 10 (cond_hexdump 1 10 [72, 105]) = cond_hexdump 1 10 [72, 105] :=
  ⟨⟨by decide, by decide⟩,
   C8_cond_hexdump_idempotent 1 10 [72, 105] (by decide) (by decide)⟩

/-- C7 (confirmed): the shutdown path emits exactly the message selected
by the recorded termination cause -- select-failed, driver-switch-failed,
empty-read and read-error each map to their own message, the five
possible messages are pairwise distinct, quit and signal emit nothing,
any unrecognized cause emits the unknown-error message -- and the process
exits with success status for every cause. -/
theorem C7_termination_messages :
    (shutdown_messages TERM_SELECT_FAILED = [("I/O wait on device failed\n")] ∧
     shutdown_messages TERM_DRIVER_SWITCH = [("Driver type switch failed\n")] ∧
     shutdown_messages TERM_EMPTY_READ = [("Device went offline\n")] ∧
     shutdown_messages TERM_READ_ERROR = [("Read error from device\n")] ∧
     shutdown_messages TERM_SIGNAL = [] ∧
     shutdown_messages TERM_QUIT = [] ∧
     List.Nodup [("I/O wait on device failed\n"), ("Driver type switch failed\n"),
       ("Device went offline\n"), ("Read error from device\n"),
       ("Unknown error, should never happen.\n")]) ∧
    (∀ b : Int, exit_code b = 0) ∧
    (∀ b : Int, b ∉ ([1, 2, 3, 4, 5, 6] : List Int) →
       shutdown_messages b = [("Unknown error, should never happen.\n")]) := by
  refine ⟨by decide, fun b => rfl, fun b hb => ?_⟩
  simp only [List.mem_cons, List.not_mem_nil, or_false, not_or] at hb
  obtain ⟨h1, h2, h3, h4, h5, h6⟩ := hb
  simp [shutdown_messages, explanation, TERM_SELECT_FAILED, TERM_DRIVER_SWITCH,
        TERM_EMPTY_READ, TERM_READ_ERROR, TERM_SIGNAL, TERM_QUIT,
        h1, h2, h3, h4, h5, h6]

/-- Witness for C7 at the unrecognized cause 7. -/
theorem C7_termination_messages_witness :
    ((7 : Int) ∉ ([1, 2, 3, 4, 5, 6] : List Int)) ∧
    shutdown_messages 7 = [("Unknown error, should never happen.\n")] :=
  ⟨by decide, C7_termination_messages.2.2 7 (by decide)⟩

/-- C1 counterexample: on a 100x50 display, switching the active handler
from the NMEA handler to the JSON handler completes (switch_type returns
true and replaces the active handler), the outgoing wrap hook fires, and
yet no initialize-hook invocation occurs -- refuting the part of the
claim stating that the incoming handler's initialize hook is invoked as
part of every completed switch (the source never calls any initialize
callback). -/
theorem C1_switch_no_init_counterexample :
    (switch_type monitor_objects 50 100 (some nmea_mmt) driver_json_passthrough).returned
      = true ∧
    (switch_type monitor_objects 50 100 (some nmea_mmt) driver_json_passthrough).active
      = some json_mmt ∧
    (switch_type monitor_objects 50 100 (some nmea_mmt) driver_json_passthrough).events
      = [HookEvent.wrapCall ("NMEA0183")] ∧
    ((switch_type monitor_objects 50 100 (some nmea_mmt) driver_json_passthrough).events.any
       isInitEvent) = false := by decide

/-- C1 (corrected): for every switch performed by switch_type, no
initialize-hook event ever occurs, and every completed switch (registry
match found, display large enough) installs the matched handler and runs
exactly the outgoing handler's wrap (leave) hook when present -- the wrap
hook is thus trivially never preceded by an initialize call, but the
incoming handler's initialize hook is never invoked at all. -/
theorem C1_switch_wrap_only (objs : List monitor_object_t) (lines cols : Int)
    (act : Option monitor_object_t) (dt : gps_type_t) :
    ((switch_type objs lines cols act dt).events.any isInitEvent) = false ∧
    (∀ m, find_monitor objs dt = some m →
      ¬(lines < m.min_y + 1 ∨ cols < m.min_x) →
      (switch_type objs lines cols act dt).active = some m ∧
      (switch_type objs lines cols act dt).events = wrap_events act) := by
  constructor
  · cases hf : find_monitor objs dt with
    | none => simp [switch_type, hf]
    | some m =>
      by_cases hsz : lines < m.min_y + 1 ∨ cols < m.min_x
      · simp [switch_type, hf, hsz]
      · simp only [switch_type, hf, if_neg hsz]
        cases act with
        | none => simp [wrap_events]
        | some a =>
          by_cases hw : a.has_wrap <;> simp [wrap_events, hw, isInitEvent]
  · intro m hf hsz
    simp [switch_type, hf, hsz]

/-- Witness for C1 on a completed switch to the JSON handler. -/
theorem C1_switch_wrap_only_witness :
    (find_monitor monitor_objects driver_json_passthrough = some json_mmt ∧
     ¬((50 : Int) < json_mmt.min_y + 1 ∨ (100 : Int) < json_mmt.min_x)) ∧
    ((switch_type monitor_objects 50 100 (some json_mmt) driver_json_passthrough).active
       = some json_mmt ∧
     (switch_type monitor_objects 50 100 (some json_mmt) driver_json_passthrough).events
       = wrap_events (some json_mmt)) :=
  ⟨⟨by decide, by decide⟩,
   (C1_switch_wrap_only monitor_objects 50 100 (some json_mmt) driver_json_passthrough).2
     json_mmt (by decide) (by decide)⟩

/-- C2 counterexample: with a sticky previous device type and a packet
whose identifier is the generic NMEA protocol, the lookup target computed
by select_packet_monitor is the generic driver_nmea0183 -- not the sticky
descriptor, as the claim states -- and the resulting active handler is
the generic NMEA handler, so the specialized panel does not stay
displayed. -/
theorem C2_sticky_override_counterexample :
    active_type_for sticky_test_driver NMEA_PACKET = driver_nmea0183 ∧
    ¬(active_type_for sticky_test_driver NMEA_PACKET = sticky_test_driver) ∧
    (select_packet_monitor monitor_objects 100 100
       { last_type := BAD_PACKET, active := none }
       { lexer_type := NMEA_PACKET, device_type := sticky_test_driver,
         outbuflen := 5 }).st.active = some nmea_mmt := by decide

/-- C2 (corrected): on a packet whose identifier differs from the
previous one, when the previous device-type descriptor is sticky and the
new identifier is the generic NMEA protocol, the lookup target is
overridden to the generic driver_nmea0183 (replacing the specialized
panel by the generic one); the resulting active handler equals the
registry's match for the (possibly NMEA-overridden) identifier when the
display is large enough, and remains unchanged when the size check fails
(with last_type updated and no termination in either case). -/
theorem C2_select_resolution (lines cols : Int) (st : SelectState) (dev : DeviceView)
    (m : monitor_object_t)
    (hchange : dev.lexer_type ≠ st.last_type)
    (hfind : find_monitor monitor_objects
               (active_type_for dev.device_type dev.lexer_type) = some m) :
    ((dev.lexer_type = NMEA_PACKET ∧ (dev.device_type.flags &&& DRIVER_STICKY) ≠ 0) →
       active_type_for dev.device_type dev.lexer_type = driver_nmea0183) ∧
    (¬(lines < m.min_y + 1 ∨ cols < m.min_x) →
       (select_packet_monitor monitor_objects lines cols st dev).terminated = none ∧
       (select_packet_monitor monitor_objects lines cols st dev).st =
         { last_type := dev.lexer_type, active := some m }) ∧
    ((lines < m.min_y + 1 ∨ cols < m.min_x) →
       (select_packet_monitor monitor_objects lines cols st dev).terminated = none ∧
       (select_packet_monitor monitor_objects lines cols st dev).st =
         { last_type := dev.lexer_type, active := st.active }) := by
  refine ⟨fun hc => ?_, fun hsz => ?_, fun hsz => ?_⟩
  · unfold active_type_for
    rw [if_pos hc]
  · simp [select_packet_monitor, hchange, switch_type, hfind, hsz]
  · simp [select_packet_monitor, hchange, switch_type, hfind, hsz]

/-- Witness for C2: a sticky device type degrading to NMEA framing on a
100x100 display resolves to the generic NMEA handler. -/
theorem C2_select_resolution_witness :
    (select_packet_monitor monitor_objects 100 100
       { last_type := BAD_PACKET, active := none }
       { lexer_type := NMEA_PACKET, device_type := sticky_test_driver,
         outbuflen := 5 }).terminated = none ∧
    (select_packet_monitor monitor_objects 100 100
       { last_type := BAD_PACKET, active := none }
       { lexer_type := NMEA_PACKET, device_type := sticky_test_driver,
         outbuflen := 5 }).st =
      { last_type := NMEA_PACKET, active := some nmea_mmt } :=
  (C2_select_resolution 100 100 { last_type := BAD_PACKET, active := none }
     { lexer_type := NMEA_PACKET, device_type := sticky_test_driver, outbuflen := 5 }
     nmea_mmt (by decide) (by decide)).2.1 (by decide)

theorem ntp_check_latch (st : HookState) :
    (ntp_check st).latch_calls =
      (if 0 < st.newdata_time.tv_sec ∧ st.fix_in_real.tv_sec < st.newdata_time.tv_sec
       then [st.time_offset] else []) := by
  unfold ntp_check
  by_cases h1 : st.newdata_time.tv_sec ≤ 0
  · have hng : ¬(0 < st.newdata_time.tv_sec ∧
        st.fix_in_real.tv_sec < st.newdata_time.tv_sec) := by omega
    simp [h1, hng]
  · by_cases h2 : st.newdata_time.tv_sec ≤ st.fix_in_real.tv_sec
    · have hng : ¬(0 < st.newdata_time.tv_sec ∧
          st.fix_in_real.tv_sec < st.newdata_time.tv_sec) := by omega
      simp [h1, h2, hng]
    · have hps : 0 < st.newdata_time.tv_sec ∧
          st.fix_in_real.tv_sec < st.newdata_time.tv_sec := by omega
      simp [h1, h2, hps]

/-- C4 counterexample: in client mode a well-formed TOFF packet arrives
while the latest fix time (5 s) is positive and strictly newer than the
reference fix time (3 s); the hook captures the sample and returns early,
making zero ntp_latch calls -- the claim, which requires exactly one
latch call after every processed packet with a positive, strictly newer
fix time, is false at this input. -/
theorem C4_toff_latch_counterexample :
    (0 < hook_state_newfix.newdata_time.tv_sec ∧
     hook_state_newfix.fix_in_real.tv_sec < hook_state_newfix.newdata_time.tv_sec) ∧
    (gpsmon_hook hook_state_newfix pkt_toff).latch_calls = [] ∧
    (gpsmon_hook hook_state_newfix pkt_toff).state.time_offset = td_test2 := by decide

/-- C4 (corrected): for every processed packet that does not take the
early-return TOFF branch and is not an ill-formed PPS packet, ntp_latch
is invoked -- exactly once, with the current timing-offset sample, which
is the one captured from the most recent TOFF event -- iff the latest fix
time is positive and strictly greater than the previously recorded
reference fix time; TOFF packets themselves (which capture the sample)
and ill-formed packets return before the latch check and never latch. -/
theorem C4_latch_condition (st : HookState) (pkt : PacketView)
    (htoff : ¬(st.serial = false ∧ toffMarker.isPrefixOf pkt.outbuffer = true))
    (hpps : ¬(st.serial = false ∧ ppsMarker.isPrefixOf pkt.outbuffer = true ∧
              pkt.pps_parse = none)) :
    (gpsmon_hook st pkt).latch_calls =
      (if 0 < st.newdata_time.tv_sec ∧ st.fix_in_real.tv_sec < st.newdata_time.tv_sec
       then [st.time_offset] else []) := by
  unfold gpsmon_hook
  rw [if_neg htoff]
  by_cases hp : st.serial = false ∧ ppsMarker.isPrefixOf pkt.outbuffer = true
  · rw [if_pos hp]
    cases hpar : pkt.pps_parse with
    | none => exact absurd ⟨hp.1, hp.2, hpar⟩ hpps
    | some pps =>
      simpa using ntp_check_latch
        { st with pps_out := pps, ppsout_count := st.ppsout_count + 1 }
  · rw [if_neg hp]
    exact ntp_check_latch st

/-- Witness for C4: a serial-mode packet with a positive fix time 5 s,
newer than the 3 s reference, latches exactly the current sample. -/
theorem C4_latch_condition_witness :
    (gpsmon_hook { hook_state_newfix with serial := true }
       { outbuffer := [40], toff_parse := none, pps_parse := none }).latch_calls
      = [td_test] := by
  have h := C4_latch_condition { hook_state_newfix with serial := true }
    { outbuffer := [40], toff_parse := none, pps_parse := none }
    (by decide) (by decide)
  rw [h]
  decide

/-- C3 (code_bug evidence): evaluating do_command on the exact claimed
command lines.  For the line "s 4800:8N1" (with a known device, a
low-level session and a speed-switch capability) the capability is
invoked with baud 800 -- not 4800 -- because the whitespace-skip loop of
the argument computation advances one byte past the single space, leaving
the argument "800:8N1"; parity N and stopbits 1 are as claimed.  For the
line "s 4800:9N1" the command is rejected with the word-length complaint
before any capability invocation, as claimed. -/
theorem C3_speed_command_evaluation :
    (do_command cmd_state_test cmd_env_test lineS48).effects.head? =
      some (Effect.speedSwitcherCall ("SiRF") 800 78 1) ∧
    ((do_command cmd_state_test cmd_env_test lineS48).effects.any
       (fun e => e == Effect.speedSwitcherCall ("SiRF") 4800 78 1)) = false ∧
    (do_command cmd_state_test cmd_env_test lineS49).effects =
      [Effect.complainMsg ("No support for that word length.")] ∧
    ((do_command cmd_state_test cmd_env_test lineS49).effects.any
       isSpeedSwitcherCall) = false ∧
    (do_command cmd_state_test cmd_env_test lineS48).cont = true := by decide

/-- C5 (code_bug evidence): evaluating do_command on the l command line
"l /tmp/gpslog".  With a failing fopen, logging ends disabled and the
command still returns Continue as claimed, but -- because the success
test "if (fopen(...) != NULL) break;" falls through into the n case on
failure -- the mode-switch capability of the device is invoked, i.e. the
command performs device reconfiguration belonging to the n verb.  With a
successful fopen no mode switch happens and logging ends enabled. -/
theorem C5_logfile_fallthrough_evaluation :
    (do_command cmd_state_log cmd_env_fopen_fail lineLog).cont = true ∧
    (do_command cmd_state_log cmd_env_fopen_fail lineLog).state.logfile_open = false ∧
    ((do_command cmd_state_log cmd_env_fopen_fail lineLog).effects.take 2 =
       [Effect.fcloseLog, Effect.fopenAppend (lineLog.drop 1)]) ∧
    ((do_command cmd_state_log cmd_env_fopen_fail lineLog).effects.any
       isModeSwitcherCall) = true ∧
    ((do_command cmd_state_log cmd_env_test lineLog).effects.any
       isModeSwitcherCall) = false ∧
    (do_command cmd_state_log cmd_env_test lineLog).state.logfile_open = true := by decide

/-- C6 counterexample: the command line "i 0" on a low-level session with
a known device disables probing (context.readonly becomes true) and
leaves the retry counter at its previous value 7 -- the claim, which
requires the counter to be reset to zero whenever probing is disabled, is
false at this input. -/
theorem C6_disable_keeps_counter_counterexample :
    (do_command cmd_state_probe cmd_env_test lineI0).state.readonly = true ∧
    ¬((do_command cmd_state_probe cmd_env_test lineI0).state.lexer_counter = 0) ∧
    (do_command cmd_state_probe cmd_env_test lineI0).state.lexer_counter = 7 := by decide

/-- C6 (corrected): for every i command with a known device and a
low-level session, the command continues; with no 0/1 byte anywhere in
the line the readonly flag (negation of probing-enabled) is toggled, and
otherwise it is set to (atoi of the rest of the line == 0), so an
argument parsing to 0 disables probing and any other value (such as 1)
enables it; and the retry counter session.lexer.counter is reset to zero
exactly when probing ends enabled (readonly false) -- forcing the
reconfigure -- while disabling probing leaves the counter unchanged. -/
theorem C6_probe_command_behavior (st : CmdState) (env : CmdEnv) (rest : List Nat)
    (dt : gps_type_t) (hdev : st.device_type = some dt) (hser : st.serial = true) :
    (do_command st env (105 :: rest)).cont = true ∧
    (do_command st env (105 :: rest)).state.readonly =
      (if noZeroOne (105 :: rest) then !st.readonly else (atoiBytes rest == 0)) ∧
    (do_command st env (105 :: rest)).state.lexer_counter =
      (if (do_command st env (105 :: rest)).state.readonly then st.lexer_counter
       else 0) := by
  have hred : do_command st env (105 :: rest) =
      { cont := true, state := (cmd_i st (105 :: rest)).1,
        effects := (cmd_i st (105 :: rest)).2 } := rfl
  rw [hred]
  unfold cmd_i
  rw [hdev, hser]
  simp only [Bool.true_eq_false, if_false, List.drop_succ_cons, List.drop_zero]
  by_cases hz : noZeroOne (105 :: rest)
  · simp [hz]
  · simp [hz]

/-- Witness for C6 at the line "i 1": probing ends enabled and the
counter is reset to zero. -/
theorem C6_probe_command_behavior_witness :
    (cmd_state_probe.device_type = some dt_caps_test ∧ cmd_state_probe.serial = true) ∧
    ((do_command cmd_state_probe cmd_env_test (105 :: [32, 49])).cont = true ∧
     (do_command cmd_state_probe cmd_env_test (105 :: [32, 49])).state.readonly =
       (if noZeroOne (105 :: [32, 49]) then !cmd_state_probe.readonly
        else (atoiBytes [32, 49] == 0)) ∧
     (do_command cmd_state_probe cmd_env_test (105 :: [32, 49])).state.lexer_counter =
       (if (do_command cmd_state_probe cmd_env_test (105 :: [32, 49])).state.readonly
        then cmd_state_probe.lexer_counter else 0)) :=
  ⟨⟨by decide, by decide⟩,
   C6_probe_command_behavior cmd_state_probe cmd_env_test [32, 49] dt_caps_test
     (by decide) (by decide)⟩

/-- C9 (confirmed): whenever nmea_update runs on a packet whose first
byte is the dollar sign with a non-NULL parsed field array and first
field, it evaluates assert(ymax > 0) on the never-assigned local ymax --
modelled as an explicit indeterminate parameter -- so for every state,
field and clock reading the hook aborts when the indeterminate value is
0 and does not abort when it is 1: the assertion's validity cannot be
established for any such invocation.  Moreover the never-assigned xmax
bounds the sentence-tag append: at the concrete state with sentences
ABCDE and field GPGGA, xmax = 100 appends the tag while xmax = 0 rewrites
the tail to dots, so the visible behaviour also depends on an
indeterminate value. -/
theorem C9_nmea_update_uninitialized (st : NmeaState) (f0 : List Nat) (xmax : Int)
    (now : timespec) :
    isAborted (nmea_update st 36 true (some f0) 0 xmax now) = true ∧
    isAborted (nmea_update st 36 true (some f0) 1 xmax now) = false ∧
    sentencesOf (nmea_update nmea_state_test 36 true (some gpggaBytes) 1 100
      { tv_sec := 5, tv_nsec := 0 }) = [65, 66, 67, 68, 69, 32, 71, 80, 71, 71, 65] ∧
    sentencesOf (nmea_update nmea_state_test 36 true (some gpggaBytes) 1 0
      { tv_sec := 5, tv_nsec := 0 }) = [65, 66, 46, 46, 46] := by
  refine ⟨?_, ?_, by decide, by decide⟩
  · simp [nmea_update, isAborted]
  · simp [nmea_update, isAborted]

end Gpsmon
